import Mathlib

/-!
Shallow embedding of the port-guardian monitoring agent.

The definitions below are transcribed from the Python sources:
  * src/checker/port_checker.py   (probe engine and liveness tracker)
  * src/notifier/webhook_notifier.py (payload rendering and retry delivery)
  * src/checker/config_loader.py  (webhook method validation)

Interaction with the operating system (sockets, HTTP, wall clock, sleep) is
modelled by explicit behaviour parameters: each probe or delivery attempt is
handed the outcome the outside world would produce, and the functions compute
exactly what the Python code computes from that outcome.
-/

namespace PortGuardian

/-- A configured endpoint (one element of the `servers` list in the
configuration); fields as consumed by `PortChecker.check_server`. -/
structure Server where
  name : String
  host : String
  port : Nat
  protocol : String
deriving DecidableEq, Repr

/-- `PortChecker.previous_states`: a Python dict mapping the
`host:port:protocol` identity string to the last observed liveness boolean.
A dict is embedded as a total function into `Option`. -/
def PrevStates : Type := String → Option Bool

/-- The empty `previous_states` dict (state of a freshly built checker). -/
def emptyPrev : PrevStates := fun _ => none

/-- Python `str.lower()` as applied to the ASCII protocol strings
(per-character case folding; built on the character list so that it
reduces inside the kernel). -/
def pyLower (x : String) : String := String.mk (x.data.map Char.toLower)

/-- Python `str.upper()` as applied to the ASCII HTTP method strings. -/
def pyUpper (x : String) : String := String.mk (x.data.map Char.toUpper)

/-- Outcome the network produces for one TCP probe
(`PortChecker.check_tcp_port`).  `connectResult code elapsed` is
`connect_ex` returning error code `code` after `elapsed` seconds;
`sockError` is a raised `socket.error` (caught by the probe); `fault` is any
other raised exception, which the probe does not catch. -/
inductive TcpBeh where
  | connectResult (code : Nat) (elapsed : ℚ)
  | sockError (msg : String)
  | fault (msg : String)
deriving DecidableEq, Repr

/-- Outcome the network produces for one UDP probe
(`PortChecker.check_udp_port`): a datagram reply, a read timeout
(`socket.timeout` from `recvfrom`, caught by the inner handler), a raised
`socket.error` anywhere in the block (caught by the outer handler), or any
other exception (uncaught). -/
inductive UdpBeh where
  | reply (elapsed : ℚ)
  | readTimeout (elapsed : ℚ)
  | sockError (msg : String)
  | fault (msg : String)
deriving DecidableEq, Repr

/-- Network behaviour offered to one `check_server` call: what a TCP probe
and what a UDP probe of the target would observe. -/
structure Net where
  tcpBeh : TcpBeh
  udpBeh : UdpBeh
deriving DecidableEq, Repr

/-- `PortChecker.check_tcp_port`: returns `(result == 0, response_time)` when
`connect_ex` returns, `(False, None)` on a caught `socket.error`, and
propagates any other exception. -/
def check_tcp_port : TcpBeh → Except String (Bool × Option ℚ)
  | .connectResult code elapsed => .ok (code == 0, some elapsed)
  | .sockError _ => .ok (false, none)
  | .fault m => .error m

/-- `PortChecker.check_udp_port`: a reply and a read timeout both yield
`(True, response_time)` (the documented UDP quirk); a caught `socket.error`
yields `(False, None)`; any other exception propagates. -/
def check_udp_port : UdpBeh → Except String (Bool × Option ℚ)
  | .reply elapsed => .ok (true, some elapsed)
  | .readTimeout elapsed => .ok (true, some elapsed)
  | .sockError _ => .ok (false, none)
  | .fault m => .error m

/-- Python `round(x, 2)` on the millisecond value; embedded as round half
up on rationals (Python rounds half to even on floats, but no claim depends
on behaviour at exact ties). -/
def pyRound2 (x : ℚ) : ℚ := ((Rat.floor (x * 100 + 1/2) : ℤ) : ℚ) / 100

/-- The tracker identity string `f"{host}:{port}:{protocol}"` built in
`check_server` (with the protocol already lower-cased). -/
def serverKey (server : Server) : String :=
  server.host ++ ":" ++ toString server.port ++ ":" ++ pyLower server.protocol

/-- The result dict built by `PortChecker.check_server`.  `error = some _`
encodes presence of the `'error'` key (only the unsupported-protocol dict
has it); `checked_at = some _` encodes presence of the `'checked_at'` key
(only the probed dict has it); `response_time` is always a key, `none`
standing for the value `None`. -/
structure CheckResult where
  server : Server
  is_alive : Bool
  response_time : Option ℚ
  status_changed : Bool
  error : Option String
  checked_at : Option ℚ
deriving DecidableEq, Repr

/-- The `if protocol == 'tcp' / elif 'udp' / else` dispatch at the top of
`check_server`; `ok none` marks the unsupported-protocol early return. -/
def probeStep (net : Net) (server : Server) : Except String (Option (Bool × Option ℚ)) :=
  if pyLower server.protocol = "tcp" then (check_tcp_port net.tcpBeh).map some
  else if pyLower server.protocol = "udp" then (check_udp_port net.udpBeh).map some
  else .ok none

/-- `PortChecker.check_server`.  `now` is `time.time()` at the point the
result dict is built.  The returned state is the checker's
`previous_states` after the call; a propagated probe exception leaves it
unchanged (the dict is only written after a successful probe). -/
def check_server (net : Net) (now : ℚ) (prev : PrevStates) (server : Server) :
    Except String CheckResult × PrevStates :=
  let protocol := pyLower server.protocol
  match probeStep net server with
  | .error m => (.error m, prev)
  | .ok none =>
      -- early return for an unsupported protocol: previous_states untouched
      (.ok { server := server, is_alive := false, response_time := none,
             status_changed := false,
             error := some ("不支持的协议: " ++ protocol),
             checked_at := none }, prev)
  | .ok (some (is_alive, response_time)) =>
      let server_key := serverKey server
      let previous_state := prev server_key
      let status_changed :=
        match previous_state with
        | none => false
        | some b => b != is_alive
      let prev2 : PrevStates :=
        fun k => if k = server_key then some is_alive else prev k
      (.ok { server := server, is_alive := is_alive,
             response_time :=
               match response_time with
               | none => none
               | some t => if t = 0 then none else some (pyRound2 (t * 1000)),
             status_changed := status_changed, error := none,
             checked_at := some now }, prev2)

/-- `PortChecker.check_all_servers`: a plain loop appending each
`check_server` result; an exception raised inside one call propagates,
losing the collected list (updates to `previous_states` made by completed
iterations persist on the checker object). -/
def check_all_servers (net : Server → Net) (now : ℚ) :
    PrevStates → List Server → Except String (List CheckResult) × PrevStates
  | prev, [] => (.ok [], prev)
  | prev, server :: rest =>
    match check_server (net server) now prev server with
    | (.error m, prev2) => (.error m, prev2)
    | (.ok r, prev2) =>
      match check_all_servers net now prev2 rest with
      | (.error m, prev3) => (.error m, prev3)
      | (.ok rs, prev3) => (.ok (r :: rs), prev3)

/-- A JSON-like value as held in the Python payload dicts built by
`WebhookNotifier.format_port_status_message` (`null` is Python `None`). -/
inductive JVal where
  | null
  | s (v : String)
  | i (v : Int)
  | n (v : ℚ)
  | obj (fields : List (String × JVal))
deriving Repr

/-- Keys of an object payload, in insertion order. -/
def JVal.keys : JVal → List String
  | .obj fields => fields.map Prod.fst
  | _ => []

/-- Value under a key of an object payload. -/
def JVal.lookupKey : JVal → String → Option JVal
  | .obj fields, k => fields.lookup k
  | _, _ => none

/-- Whether a payload value is a (JSON) string. -/
def JVal.isStr : JVal → Bool
  | .s _ => true
  | _ => false

/-- `"pattern in text"` on Python strings: substring containment. -/
def strContains (hay pat : String) : Bool :=
  hay.toList.tails.any fun t => pat.toList.isPrefixOf t

/-- The `webhook` section of the configuration as handed to
`WebhookNotifier.__init__`; `headers = none` and `msg_type = none` encode
absent optional keys. -/
structure WebhookConfig where
  url : String
  method : String
  headers : Option (List (String × String))
  retry_count : Int
  retry_interval : Int
  msg_type : Option String
deriving Repr

/-- The notifier state after `WebhookNotifier.__init__`:
method upper-cased, retry parameters clamped (`max(0, retry_count)`,
`max(1, retry_interval)`), `msg_type` defaulted to `"text"`, and
`Content-Type: application/json` added when absent. -/
structure WebhookNotifier where
  url : String
  method : String
  headers : List (String × String)
  retry_count : Nat
  retry_interval : Int
  msg_type : String
deriving Repr

/-- `WebhookNotifier.__init__` applied to a configuration. -/
def initNotifier (c : WebhookConfig) : WebhookNotifier :=
  let headers0 := c.headers.getD []
  let headers :=
    if (headers0.lookup "Content-Type").isSome then headers0
    else headers0 ++ [("Content-Type", "application/json")]
  { url := c.url,
    method := pyUpper c.method,
    headers := headers,
    retry_count := (max 0 c.retry_count).toNat,
    retry_interval := max 1 c.retry_interval,
    msg_type := c.msg_type.getD "text" }

/-- `ConfigLoader.validate_config` on the webhook `method` field: passes
exactly when the upper-cased method is GET, POST or PUT. -/
def validate_webhook_method (m : String) : Bool :=
  let mu := pyUpper m
  mu == "GET" || mu == "POST" || mu == "PUT"

/-- Body of one HTTP request as issued by `WebhookNotifier._send_request`:
`requests.post(..., json=payload)`, `requests.post(..., data=payload)`, or
`requests.get(..., params=payload)`. -/
inductive ReqBody where
  | jsonBody (p : JVal)
  | formBody (p : JVal)
  | queryParams (p : JVal)
deriving Repr

/-- One outbound HTTP request. -/
structure HttpRequest where
  method : String
  url : String
  headers : List (String × String)
  body : ReqBody
deriving Repr

/-- `WebhookNotifier._send_request`: POST and GET each issue exactly one
HTTP request (POST chooses `json=` or `data=` by the Content-Type header);
any other method issues no request and returns False.  `netOk` abstracts
the network outcome of the issued request: True exactly when a response
arrived and `raise_for_status` passed (every exception path of the source
returns False). -/
def send_request (n : WebhookNotifier) (netOk : Bool) (payload : JVal) :
    Bool × List HttpRequest :=
  if n.method = "POST" then
    let body :=
      if n.headers.lookup "Content-Type" = some "application/json" then
        ReqBody.jsonBody payload
      else ReqBody.formBody payload
    (netOk, [{ method := "POST", url := n.url, headers := n.headers, body := body }])
  else if n.method = "GET" then
    (netOk, [{ method := "GET", url := n.url, headers := n.headers,
               body := ReqBody.queryParams payload }])
  else
    (false, [])

/-- The `for attempt in range(1, retry_count + 1)` loop of
`WebhookNotifier.send_notification`.  `f i` is the boolean
`_send_request` returns on the i-th call (0-based); `remaining` counts the
loop iterations left and `idx` the calls already made.  Returns
(returned value, number of `_send_request` calls, number of `time.sleep`
calls). -/
def notifyAttempts (f : Nat → Bool) : Nat → Nat → Bool × Nat × Nat
  | 0, _ => (false, 0, 0)
  | remaining + 1, idx =>
    if f idx then (true, 1, 0)
    else if remaining = 0 then (false, 1, 0)
    else
      let r := notifyAttempts f remaining (idx + 1)
      (r.1, r.2.1 + 1, r.2.2 + 1)

/-- `WebhookNotifier.send_notification`: one `_send_request` call when
`retry_count = 0`, otherwise the loop over attempts `1..retry_count` with a
sleep of `retry_interval` seconds after each failed non-final attempt.
Returns (returned value, `_send_request` calls made, sleeps made). -/
def send_notification (n : WebhookNotifier) (f : Nat → Bool) : Bool × Nat × Nat :=
  if n.retry_count = 0 then (f 0, 1, 0)
  else notifyAttempts f n.retry_count 0

/-- Python `str(...)` of an optional float dict value (used inside the
provider text bodies; the exact numeral rendering differs from CPython's
float repr but no claim concerns the rendered text). -/
def pyShowOptQ : Option ℚ → String
  | none => "None"
  | some q => toString q

/-- The f-string text of the feishu/larksuite branch of
`format_port_status_message`; `fmtTime` is `time.strftime` at call time
(used only when the result dict lacks `checked_at`). -/
def feishuText (cr : CheckResult) (fmtTime : String) : String :=
  let status := if cr.is_alive then "恢复正常" else "出现异常"
  let emoji := if cr.is_alive then "✅" else "❌"
  emoji ++ " 服务器端口" ++ status ++ "\n" ++
    "服务器名称: " ++ cr.server.name ++ "\n" ++
    "主机地址: " ++ cr.server.host ++ "\n" ++
    "端口: " ++ toString cr.server.port ++ "\n" ++
    "协议: " ++ cr.server.protocol ++ "\n" ++
    "状态: " ++ (if cr.is_alive then "UP" else "DOWN") ++ "\n" ++
    "响应时间: " ++ pyShowOptQ cr.response_time ++ "ms\n" ++
    "检查时间: " ++ (match cr.checked_at with
                     | some t => toString t
                     | none => fmtTime)

/-- The f-string text of the dingtalk branch of
`format_port_status_message` (no `检查时间` line). -/
def dingtalkText (cr : CheckResult) : String :=
  let status := if cr.is_alive then "恢复正常" else "出现异常"
  let emoji := if cr.is_alive then "✅" else "❌"
  emoji ++ " 服务器端口" ++ status ++ "\n" ++
    "服务器名称: " ++ cr.server.name ++ "\n" ++
    "主机地址: " ++ cr.server.host ++ "\n" ++
    "端口: " ++ toString cr.server.port ++ "\n" ++
    "协议: " ++ cr.server.protocol ++ "\n" ++
    "状态: " ++ (if cr.is_alive then "UP" else "DOWN") ++ "\n" ++
    "响应时间: " ++ pyShowOptQ cr.response_time ++ "ms"

/-- `WebhookNotifier.format_port_status_message`: payload shape chosen by
substring match on the destination URL.  `fmtTime` is the
`time.strftime(...)` fallback string and `nowTs` the `time.time()` float
taken while building the generic dict.  In the generic dict,
`response_time_ms` is `get('response_time', '未知')` — the key is always
present in a checker result, so its value (possibly `None`) is used — and
`checked_at` is `get('checked_at', strftime)`, falling back to the
formatted string only when the key is absent. -/
def format_port_status_message (n : WebhookNotifier) (fmtTime : String)
    (nowTs : ℚ) (cr : CheckResult) : JVal :=
  if strContains n.url "feishu.cn" || strContains n.url "larksuite.com" then
    JVal.obj [("msg_type", JVal.s n.msg_type),
              ("content", JVal.obj [("text", JVal.s (feishuText cr fmtTime))])]
  else if strContains n.url "dingtalk.com" then
    JVal.obj [("msgtype", JVal.s "text"),
              ("text", JVal.obj [("content", JVal.s (dingtalkText cr))])]
  else
    JVal.obj [("msg_type", JVal.s n.msg_type),
              ("title", JVal.s ((if cr.is_alive then "✅" else "❌") ++
                " 服务器端口" ++ (if cr.is_alive then "恢复正常" else "出现异常"))),
              ("server_name", JVal.s cr.server.name),
              ("host", JVal.s cr.server.host),
              ("port", JVal.i cr.server.port),
              ("protocol", JVal.s cr.server.protocol),
              ("status", JVal.s (if cr.is_alive then "UP" else "DOWN")),
              ("response_time_ms",
                match cr.response_time with
                | none => JVal.null
                | some q => JVal.n q),
              ("checked_at",
                match cr.checked_at with
                | none => JVal.s fmtTime
                | some t => JVal.n t),
              ("timestamp", JVal.n nowTs)]

/-- `WebhookNotifier.notify_port_status_change`: a result whose
`status_changed` flag is False returns True with no `_send_request` call
(and hence no HTTP request, since only `_send_request` performs one);
otherwise the payload is rendered and handed to `send_notification`.
`net message i` is the `_send_request` outcome of attempt `i` for that
payload.  Returns (returned value, `_send_request` calls, sleeps). -/
def notify_port_status_change (n : WebhookNotifier) (net : JVal → Nat → Bool)
    (fmtTime : String) (nowTs : ℚ) (cr : CheckResult) : Bool × Nat × Nat :=
  if cr.status_changed = false then (true, 0, 0)
  else
    let message := format_port_status_message n fmtTime nowTs cr
    send_notification n (net message)

/-! ## Helper lemmas on the checker -/

/-- Unfolding `check_server` when the probe dispatch raises. -/
theorem check_server_probe_error (net : Net) (now : ℚ) (prev : PrevStates)
    (server : Server) (m : String) (hpr : probeStep net server = Except.error m) :
    check_server net now prev server = (Except.error m, prev) := by
  simp only [check_server, hpr]

/-- Unfolding `check_server` on the unsupported-protocol early return. -/
theorem check_server_unsupported (net : Net) (now : ℚ) (prev : PrevStates)
    (server : Server) (hpr : probeStep net server = Except.ok none) :
    check_server net now prev server =
      (Except.ok { server := server, is_alive := false, response_time := none,
                   status_changed := false,
                   error := some ("不支持的协议: " ++ pyLower server.protocol),
                   checked_at := none }, prev) := by
  simp only [check_server, hpr]

/-- Unfolding `check_server` when the probe returned `(alive, rt)`. -/
theorem check_server_probed (net : Net) (now : ℚ) (prev : PrevStates)
    (server : Server) (alive : Bool) (rt : Option ℚ)
    (hpr : probeStep net server = Except.ok (some (alive, rt))) :
    check_server net now prev server =
      (Except.ok { server := server, is_alive := alive,
                   response_time :=
                     match rt with
                     | none => none
                     | some t => if t = 0 then none else some (pyRound2 (t * 1000)),
                   status_changed :=
                     match prev (serverKey server) with
                     | none => false
                     | some b => b != alive,
                   error := none, checked_at := some now },
       fun k => if k = serverKey server then some alive else prev k) := by
  simp only [check_server, hpr]
  cases rt <;> rfl

/-- For a supported protocol, the probe dispatch never lands on the
unsupported branch: it produces `ok (some v)` or `error`. -/
theorem probeStep_supported (net : Net) (server : Server)
    (hp : pyLower server.protocol = "tcp" ∨ pyLower server.protocol = "udp") :
    (∃ v, probeStep net server = Except.ok (some v)) ∨
    (∃ m, probeStep net server = Except.error m) := by
  rcases hp with hp | hp
  · cases hb : net.tcpBeh with
    | connectResult code e => exact Or.inl ⟨(code == 0, some e), by simp [probeStep, hp, hb, check_tcp_port, Except.map]⟩
    | sockError m => exact Or.inl ⟨(false, none), by simp [probeStep, hp, hb, check_tcp_port, Except.map]⟩
    | fault m => exact Or.inr ⟨m, by simp [probeStep, hp, hb, check_tcp_port, Except.map]⟩
  · cases hb : net.udpBeh with
    | reply e => exact Or.inl ⟨(true, some e), by simp [probeStep, hp, hb, check_udp_port, Except.map]⟩
    | readTimeout e => exact Or.inl ⟨(true, some e), by simp [probeStep, hp, hb, check_udp_port, Except.map]⟩
    | sockError m => exact Or.inl ⟨(false, none), by simp [probeStep, hp, hb, check_udp_port, Except.map]⟩
    | fault m => exact Or.inr ⟨m, by simp [probeStep, hp, hb, check_udp_port, Except.map]⟩

/-! ## Claim theorems: checker -/

/-- C1: for a supported protocol, `check_server` reports
`status_changed = true` iff a prior `previous_states` entry exists for the
endpoint identity and differs from the new reading; a first observation is
never a transition; and afterwards the entry holds the new reading. -/
theorem check_server_transition_iff (net : Net) (now : ℚ) (prev : PrevStates)
    (server : Server)
    (hp : pyLower server.protocol = "tcp" ∨ pyLower server.protocol = "udp")
    (res : CheckResult) (prev2 : PrevStates)
    (h : check_server net now prev server = (Except.ok res, prev2)) :
    (res.status_changed = true ↔
      ∃ b, prev (serverKey server) = some b ∧ b ≠ res.is_alive) ∧
    (prev (serverKey server) = none → res.status_changed = false) ∧
    prev2 (serverKey server) = some res.is_alive := by
  rcases probeStep_supported net server hp with ⟨⟨alive, rt⟩, hpr⟩ | ⟨m, hpr⟩
  · rw [check_server_probed net now prev server alive rt hpr] at h
    obtain ⟨h1, h2⟩ := Prod.mk.injEq .. ▸ h
    obtain rfl : res = _ := (Except.ok.injEq .. ▸ h1).symm
    subst h2
    refine ⟨?_, ?_, by simp⟩
    · cases hkey : prev (serverKey server) with
      | none => simp [hkey]
      | some b => simp [hkey, bne_iff_ne]
    · intro hnone; simp [hnone]
  · rw [check_server_probe_error net now prev server m hpr] at h
    exact absurd (Prod.mk.injEq .. ▸ h).1 (by simp)

/-- Witness for C1 at a concrete first observation: the memory entry after
the call holds the fresh reading. -/
theorem check_server_transition_iff_witness :
    ((check_server ⟨TcpBeh.connectResult 0 (1/20), UdpBeh.readTimeout (1/20)⟩
        100 emptyPrev ⟨"web", "h", 80, "TCP"⟩).2) "h:80:tcp" = some true := by
  have h := check_server_transition_iff
      ⟨TcpBeh.connectResult 0 (1/20), UdpBeh.readTimeout (1/20)⟩ 100 emptyPrev
      ⟨"web", "h", 80, "TCP"⟩ (Or.inl (by decide))
      { server := ⟨"web", "h", 80, "TCP"⟩, is_alive := true, response_time := some 50,
        status_changed := false, error := none, checked_at := some 100 }
      ((check_server ⟨TcpBeh.connectResult 0 (1/20), UdpBeh.readTimeout (1/20)⟩
          100 emptyPrev ⟨"web", "h", 80, "TCP"⟩).2) (by with_unfolding_all rfl)
  exact h.2.2

/-- C3: a UDP probe whose datagram is sent without error and whose read
times out is reported reachable (with the elapsed time); among probes that
return, only a caught hard socket error yields `reachable = false`. -/
theorem check_udp_port_timeout_reachable :
    (∀ e : ℚ, check_udp_port (UdpBeh.readTimeout e) = Except.ok (true, some e)) ∧
    (∀ e : ℚ, check_udp_port (UdpBeh.reply e) = Except.ok (true, some e)) ∧
    (∀ m, check_udp_port (UdpBeh.sockError m) = Except.ok (false, none)) ∧
    (∀ (b : UdpBeh) (r : Bool) (l : Option ℚ), check_udp_port b = Except.ok (r, l) →
      (r = false ↔ ∃ m, b = UdpBeh.sockError m)) := by
  refine ⟨fun e => rfl, fun e => rfl, fun m => rfl, ?_⟩
  intro b r l h
  cases b <;> simp [check_udp_port] at h <;> simp [h]

/-- Witness for C3: a concrete read-timeout probe is reported reachable. -/
theorem check_udp_port_timeout_reachable_witness :
    check_udp_port (UdpBeh.readTimeout 2) = Except.ok (true, some 2) ∧
    (false = false ↔ ∃ m, UdpBeh.sockError "icmp unreachable" = UdpBeh.sockError m) := by
  refine ⟨check_udp_port_timeout_reachable.1 2, ?_⟩
  exact check_udp_port_timeout_reachable.2.2.2 (UdpBeh.sockError "icmp unreachable")
    false none (check_udp_port_timeout_reachable.2.2.1 "icmp unreachable")

/-- Endpoints and network used for the cycle counterexample: the first
endpoint's probe raises an internal (non-socket) fault, the second's
succeeds. -/
def cycleNet : Server → Net := fun s =>
  if s.name = "a" then ⟨TcpBeh.fault "boom", UdpBeh.fault "boom"⟩
  else ⟨TcpBeh.connectResult 0 1, UdpBeh.reply 1⟩

/-- C4 counterexample: in a two-endpoint cycle where the first probe raises
an internal fault, `check_all_servers` propagates the exception and yields
no outcome list at all — in particular no outcome for the second endpoint. -/
theorem check_all_servers_isolation_refuted :
    (check_all_servers cycleNet 0 emptyPrev
      [⟨"a", "h1", 80, "tcp"⟩, ⟨"b", "h2", 81, "tcp"⟩]).1 = Except.error "boom" := by
  rfl

/-- C4 amended: a probe fault at the head endpoint of a cycle aborts the
whole cycle with that exception; the remaining endpoints produce no
outcomes. -/
theorem check_all_servers_fault_aborts (net : Server → Net) (now : ℚ)
    (prev : PrevStates) (server : Server) (rest : List Server) (m : String)
    (h : (check_server (net server) now prev server).1 = Except.error m) :
    (check_all_servers net now prev (server :: rest)).1 = Except.error m := by
  have hcs : check_server (net server) now prev server =
      (Except.error m, (check_server (net server) now prev server).2) := by
    rw [Prod.ext_iff]
    exact ⟨h, rfl⟩
  rw [check_all_servers, hcs]

/-- Witness for C4 amended at the concrete faulting cycle. -/
theorem check_all_servers_fault_aborts_witness :
    (check_all_servers cycleNet 0 emptyPrev
      [⟨"a", "h1", 80, "tcp"⟩, ⟨"b", "h2", 81, "tcp"⟩]).1 = Except.error "boom" := by
  exact check_all_servers_fault_aborts cycleNet 0 emptyPrev
    ⟨"a", "h1", 80, "tcp"⟩ [⟨"b", "h2", 81, "tcp"⟩] "boom" (by rfl)

/-- C5 counterexample: a refused TCP connection is reported by `connect_ex`
with a nonzero code, not an exception, so the probe returns the elapsed
latency (not `None`), and the resulting check outcome carries a response
time and no error string. -/
theorem tcp_refused_latency_refuted :
    check_tcp_port (TcpBeh.connectResult 111 (1/20)) = Except.ok (false, some (1/20)) ∧
    (check_server ⟨TcpBeh.connectResult 111 (1/20), UdpBeh.sockError "x"⟩
        100 emptyPrev ⟨"web", "h", 80, "TCP"⟩).1 =
      Except.ok { server := ⟨"web", "h", 80, "TCP"⟩, is_alive := false,
                  response_time := some 50, status_changed := false,
                  error := none, checked_at := some 100 } := by
  refine ⟨rfl, ?_⟩
  with_unfolding_all rfl

/-- C5 amended: a TCP probe fails with `latency = none` only when a socket
error is raised; a connection failure reported by `connect_ex` (refused,
timed out at the C level, etc.) yields `reachable = false` with the elapsed
latency; in either case the check outcome carries no error string, and it
carries a (rounded) response time exactly when the probe latency was
present and nonzero. -/
theorem check_tcp_port_failure_modes :
    (∀ m, check_tcp_port (TcpBeh.sockError m) = Except.ok (false, none)) ∧
    (∀ (code : Nat) (e : ℚ), code ≠ 0 →
      check_tcp_port (TcpBeh.connectResult code e) = Except.ok (false, some e)) ∧
    (∀ (u : UdpBeh) (now : ℚ) (prev : PrevStates) (server : Server) (code : Nat) (e : ℚ),
      pyLower server.protocol = "tcp" → code ≠ 0 → e ≠ 0 →
      ∃ r, (check_server ⟨TcpBeh.connectResult code e, u⟩ now prev server).1 = Except.ok r ∧
        r.is_alive = false ∧ r.response_time = some (pyRound2 (e * 1000)) ∧
        r.error = none ∧ r.checked_at = some now) := by
  refine ⟨fun m => rfl, ?_, ?_⟩
  · intro code e hc
    simp [check_tcp_port, Nat.beq_eq_true_eq, hc]
  · intro u now prev server code e hp hc he
    have hpr : probeStep ⟨TcpBeh.connectResult code e, u⟩ server =
        Except.ok (some (false, some e)) := by
      simp [probeStep, hp, check_tcp_port, Except.map, Nat.beq_eq_true_eq, hc]
    rw [check_server_probed _ now prev server false (some e) hpr]
    exact ⟨_, rfl, rfl, by simp [he], rfl, rfl⟩

/-- Witness for C5 amended at a refused connection taking 0.05 s. -/
theorem check_tcp_port_failure_modes_witness :
    ∃ r, (check_server ⟨TcpBeh.connectResult 111 (1/20), UdpBeh.sockError "x"⟩
        100 emptyPrev ⟨"web", "h", 80, "TCP"⟩).1 = Except.ok r ∧
      r.is_alive = false ∧ r.response_time = some (pyRound2 ((1/20) * 1000)) ∧
      r.error = none ∧ r.checked_at = some 100 := by
  exact check_tcp_port_failure_modes.2.2 (UdpBeh.sockError "x") 100 emptyPrev
    ⟨"web", "h", 80, "TCP"⟩ 111 (1/20) (by decide) (by decide) (by with_unfolding_all decide)

/-- The `previous_states` dict used by the C7 counterexample: the identity
`h:1:icmp` already holds `true`. -/
def icmpPrev : PrevStates := fun k => if k = "h:1:icmp" then some true else none

/-- C7 counterexample: on an unsupported protocol, `check_server` reports
`status_changed = false` even though the stored entry (`true`) differs from
the new reading (`false`), and it leaves the memory entry at `true` instead
of updating it to `false`. -/
theorem unsupported_protocol_memory_refuted :
    (check_server ⟨TcpBeh.sockError "x", UdpBeh.sockError "x"⟩ 0 icmpPrev
        ⟨"c", "h", 1, "ICMP"⟩).1 =
      Except.ok { server := ⟨"c", "h", 1, "ICMP"⟩, is_alive := false,
                  response_time := none, status_changed := false,
                  error := some "不支持的协议: icmp", checked_at := none } ∧
    ((check_server ⟨TcpBeh.sockError "x", UdpBeh.sockError "x"⟩ 0 icmpPrev
        ⟨"c", "h", 1, "ICMP"⟩).2) "h:1:icmp" = some true ∧
    ((check_server ⟨TcpBeh.sockError "x", UdpBeh.sockError "x"⟩ 0 icmpPrev
        ⟨"c", "h", 1, "ICMP"⟩).2) "h:1:icmp" ≠ some false := by
  exact ⟨rfl, rfl, by decide⟩

/-- C7 amended: an unsupported protocol string makes `check_server` return
`reachable = false` with a descriptive error, but it bypasses the
transition logic entirely: `status_changed` is hard-coded `false` and
`previous_states` is neither consulted nor updated. -/
theorem unsupported_protocol_skips_tracker (net : Net) (now : ℚ)
    (prev : PrevStates) (server : Server)
    (h1 : pyLower server.protocol ≠ "tcp") (h2 : pyLower server.protocol ≠ "udp") :
    check_server net now prev server =
      (Except.ok { server := server, is_alive := false, response_time := none,
                   status_changed := false,
                   error := some ("不支持的协议: " ++ pyLower server.protocol),
                   checked_at := none }, prev) := by
  have hpr : probeStep net server = Except.ok none := by
    simp [probeStep, h1, h2]
  exact check_server_unsupported net now prev server hpr

/-- Witness for C7 amended at the concrete ICMP endpoint. -/
theorem unsupported_protocol_skips_tracker_witness :
    check_server ⟨TcpBeh.sockError "x", UdpBeh.sockError "x"⟩ 0 icmpPrev
        ⟨"c", "h", 1, "ICMP"⟩ =
      (Except.ok { server := ⟨"c", "h", 1, "ICMP"⟩, is_alive := false,
                   response_time := none, status_changed := false,
                   error := some ("不支持的协议: " ++ pyLower "ICMP"),
                   checked_at := none }, icmpPrev) := by
  exact unsupported_protocol_skips_tracker ⟨TcpBeh.sockError "x", UdpBeh.sockError "x"⟩
    0 icmpPrev ⟨"c", "h", 1, "ICMP"⟩ (by decide) (by decide)

/-- C10: a `check_server` call on a tcp/udp endpoint changes at most the
`previous_states` entry of that endpoint's own identity; every other key
maps to what it mapped to before. -/
theorem check_server_frame (net : Net) (now : ℚ) (prev : PrevStates)
    (server : Server)
    (hp : pyLower server.protocol = "tcp" ∨ pyLower server.protocol = "udp")
    (k : String) (hk : k ≠ serverKey server) :
    ((check_server net now prev server).2) k = prev k := by
  rcases probeStep_supported net server hp with ⟨⟨alive, rt⟩, hpr⟩ | ⟨m, hpr⟩
  · rw [check_server_probed net now prev server alive rt hpr]
    simp [hk]
  · rw [check_server_probe_error net now prev server m hpr]

/-- Witness for C10: probing `web` does not disturb the entry of a
different identity. -/
theorem check_server_frame_witness :
    ((check_server ⟨TcpBeh.connectResult 0 (1/20), UdpBeh.readTimeout (1/20)⟩
        100 icmpPrev ⟨"web", "h", 80, "TCP"⟩).2) "h:1:icmp" = icmpPrev "h:1:icmp" := by
  exact check_server_frame ⟨TcpBeh.connectResult 0 (1/20), UdpBeh.readTimeout (1/20)⟩
    100 icmpPrev ⟨"web", "h", 80, "TCP"⟩ (Or.inl (by decide)) "h:1:icmp" (by decide)

/-! ## Helper lemmas on the notifier -/

/-- Characterisation of the retry loop `notifyAttempts` over `m ≥ 1`
iterations starting at call index `idx`: it stops at the first successful
`_send_request` call, makes at most `m` calls, makes exactly `m` when all
fail, and sleeps once after every call except the last one made. -/
theorem notifyAttempts_spec (f : Nat → Bool) :
    ∀ (m idx : Nat) (r : Bool) (a s : Nat), 1 ≤ m →
      notifyAttempts f m idx = (r, a, s) →
      (r = true ↔ ∃ j, j < m ∧ f (idx + j) = true) ∧
      1 ≤ a ∧ a ≤ m ∧
      (r = true → f (idx + a - 1) = true ∧ ∀ j, j < a - 1 → f (idx + j) = false) ∧
      (r = false → a = m ∧ ∀ j, j < m → f (idx + j) = false) ∧
      s = a - 1 := by
  intro m
  induction m with
  | zero => intro idx r a s hm; omega
  | succ k ih =>
    intro idx r a s hm heq
    rw [notifyAttempts] at heq
    by_cases hf : f idx = true
    · rw [if_pos hf] at heq
      injection heq with h1 h23
      injection h23 with h2 h3
      subst h1; subst h2; subst h3
      refine ⟨⟨fun _ => ⟨0, by omega, by simpa using hf⟩, fun _ => rfl⟩,
        by omega, by omega, fun _ => ⟨by simpa using hf, fun j hj => absurd hj (by omega)⟩,
        by simp, by omega⟩
    · simp only [Bool.not_eq_true] at hf
      rw [if_neg (by simp [hf])] at heq
      rcases Nat.eq_zero_or_pos k with rfl | hk
      · rw [if_pos rfl] at heq
        injection heq with h1 h23
        injection h23 with h2 h3
        subst h1; subst h2; subst h3
        refine ⟨?_, by omega, by omega, by simp, fun _ => ⟨rfl, ?_⟩, by omega⟩
        · constructor
          · intro h; exact absurd h (by simp)
          · rintro ⟨j, hj, hfj⟩
            have hj0 : j = 0 := by omega
            subst hj0
            rw [Nat.add_zero] at hfj
            rw [hf] at hfj
            exact absurd hfj (by simp)
        · intro j hj
          have hj0 : j = 0 := by omega
          subst hj0
          simpa using hf
      · rw [if_neg (by omega)] at heq
        rcases hrec : notifyAttempts f k (idx + 1) with ⟨r0, a0, s0⟩
        rw [hrec] at heq
        dsimp only at heq
        injection heq with h1 h23
        injection h23 with h2 h3
        subst h1; subst h2; subst h3
        obtain ⟨iA, iB, iC, iD, iE, iF⟩ := ih (idx + 1) r0 a0 s0 (by omega) hrec
        refine ⟨?_, by omega, by omega, ?_, ?_, by omega⟩
        · constructor
          · intro h
            obtain ⟨j, hj, hfj⟩ := iA.mp h
            refine ⟨j + 1, by omega, ?_⟩
            rw [show idx + (j + 1) = idx + 1 + j from by omega]
            exact hfj
          · rintro ⟨j, hj, hfj⟩
            rcases Nat.eq_zero_or_pos j with rfl | hjp
            · rw [Nat.add_zero, hf] at hfj
              exact absurd hfj (by simp)
            · refine iA.mpr ⟨j - 1, by omega, ?_⟩
              rw [show idx + 1 + (j - 1) = idx + j from by omega]
              exact hfj
        · intro h
          obtain ⟨hd1, hd2⟩ := iD h
          refine ⟨?_, ?_⟩
          · rw [show idx + (a0 + 1) - 1 = idx + 1 + a0 - 1 from by omega]
            exact hd1
          · intro j hj
            rcases Nat.eq_zero_or_pos j with rfl | hjp
            · simpa using hf
            · have := hd2 (j - 1) (by omega)
              rw [show idx + 1 + (j - 1) = idx + j from by omega] at this
              exact this
        · intro h
          obtain ⟨he1, he2⟩ := iE h
          refine ⟨by omega, ?_⟩
          intro j hj
          rcases Nat.eq_zero_or_pos j with rfl | hjp
          · simpa using hf
          · have := he2 (j - 1) (by omega)
            rw [show idx + 1 + (j - 1) = idx + j from by omega] at this
            exact this

/-! ## Claim theorems: notifier -/

/-- The concrete webhook configuration used as the C2 counterexample input:
`retry_count = 2`, `retry_interval = 1`. -/
def retryCfg : WebhookConfig :=
  { url := "http://example.com/hook", method := "post", headers := none,
    retry_count := 2, retry_interval := 1, msg_type := none }

/-- A destination that fails the first two delivery attempts and succeeds
from the third on. -/
def thirdTrySucceeds : Nat → Bool := fun i => decide (2 ≤ i)

/-- C2 counterexample: with `retry_count = 2` and a destination that fails
twice and would succeed on the third attempt, `send_notification` makes
only 2 `_send_request` calls (one sleep in between) and returns `false` —
not 3 attempts returning `true` as claimed. -/
theorem send_notification_three_attempts_refuted :
    send_notification (initNotifier retryCfg) thirdTrySucceeds = (false, 2, 1) ∧
    send_notification (initNotifier retryCfg) thirdTrySucceeds ≠ (true, 3, 2) := by
  refine ⟨by with_unfolding_all rfl, by with_unfolding_all decide⟩

/-- C2 amended: `send_notification` attempts delivery up to
`max 1 retry_count` times total (exactly once when `retry_count ∈ {0, 1}`),
stops at the first successful attempt, returns `true` exactly when one of
those attempts succeeds, and sleeps `retry_interval` seconds once after
every attempt except the last one made. -/
theorem send_notification_attempt_budget (n : WebhookNotifier) (f : Nat → Bool) :
    ((send_notification n f).1 = true ↔
      ∃ i, i < max 1 n.retry_count ∧ f i = true) ∧
    1 ≤ (send_notification n f).2.1 ∧
    (send_notification n f).2.1 ≤ max 1 n.retry_count ∧
    ((send_notification n f).1 = true →
      f ((send_notification n f).2.1 - 1) = true ∧
      ∀ j, j < (send_notification n f).2.1 - 1 → f j = false) ∧
    ((send_notification n f).1 = false →
      (send_notification n f).2.1 = max 1 n.retry_count ∧
      ∀ j, j < max 1 n.retry_count → f j = false) ∧
    (send_notification n f).2.2 = (send_notification n f).2.1 - 1 := by
  by_cases h0 : n.retry_count = 0
  · have hsn0 : send_notification n f = (f 0, 1, 0) := by
      simp [send_notification, h0]
    have hmax0 : max 1 n.retry_count = 1 := by omega
    simp only [hsn0, hmax0]
    refine ⟨?_, by omega, by omega, ?_, ?_, trivial⟩
    · constructor
      · intro h; exact ⟨0, by omega, h⟩
      · rintro ⟨j, hj, hfj⟩
        have hj0 : j = 0 := by omega
        subst hj0; exact hfj
    · intro h
      exact ⟨by simpa using h, fun j hj => absurd hj (by omega)⟩
    · intro h
      refine ⟨by simp, ?_⟩
      intro j hj
      have hj0 : j = 0 := by omega
      subst hj0
      simpa using h
  · have hmax : max 1 n.retry_count = n.retry_count := by omega
    rcases hsn : notifyAttempts f n.retry_count 0 with ⟨r0, a0, s0⟩
    obtain ⟨iA, iB, iC, iD, iE, iF⟩ :=
      notifyAttempts_spec f n.retry_count 0 r0 a0 s0 (by omega) hsn
    simp only [Nat.zero_add] at iA iD iE
    simp only [send_notification, if_neg h0, hsn, hmax]
    exact ⟨iA, iB, iC, iD, iE, iF⟩

/-- Witness for C2 amended: with `retry_count = 2` and success only from
the third attempt on, the returned value is `false`; the attempt/sleep
counts come from the same instantiation. -/
theorem send_notification_attempt_budget_witness :
    (send_notification (initNotifier retryCfg) thirdTrySucceeds).1 = false ∧
    (send_notification (initNotifier retryCfg) thirdTrySucceeds).2.2 =
      (send_notification (initNotifier retryCfg) thirdTrySucceeds).2.1 - 1 := by
  have H := send_notification_attempt_budget (initNotifier retryCfg) thirdTrySucceeds
  refine ⟨?_, H.2.2.2.2.2⟩
  by_cases hr : (send_notification (initNotifier retryCfg) thirdTrySucceeds).1 = true
  · obtain ⟨i, hi, hfi⟩ := H.1.mp hr
    have hlt : i < 2 := by
      have : max 1 (initNotifier retryCfg).retry_count = 2 := by with_unfolding_all rfl
      omega
    have : thirdTrySucceeds i = false := by
      unfold thirdTrySucceeds
      simp only [decide_eq_false_iff_not]
      omega
    rw [this] at hfi
    exact absurd hfi (by simp)
  · simpa using hr

/-- C6 (code bug): the configuration validator accepts the method `PUT`
(upper-cased from `put`), but `_send_request` for a notifier configured
with that method issues no HTTP request at all and returns `false` — the
validator and the sender contradict each other.  For contrast, the same
configuration with `post` issues exactly one request carrying the
defaulted `Content-Type: application/json` header. -/
theorem put_method_validated_but_never_sent :
    validate_webhook_method "PUT" = true ∧
    validate_webhook_method "put" = true ∧
    send_request (initNotifier
        { url := "http://example.com/hook", method := "put", headers := none,
          retry_count := 2, retry_interval := 1, msg_type := none }) true
        (JVal.s "ping") = (false, []) ∧
    send_request (initNotifier
        { url := "http://example.com/hook", method := "post", headers := none,
          retry_count := 2, retry_interval := 1, msg_type := none }) true
        (JVal.s "ping") =
      (true, [{ method := "POST", url := "http://example.com/hook",
                headers := [("Content-Type", "application/json")],
                body := ReqBody.jsonBody (JVal.s "ping") }]) := by
  refine ⟨rfl, rfl, by with_unfolding_all rfl, by with_unfolding_all rfl⟩

/-- C8: calling `notify_port_status_change` on an outcome whose
`status_changed` flag is `false` returns `true` after zero `_send_request`
calls (hence zero HTTP requests) and zero sleeps. -/
theorem notify_non_transition_noop (n : WebhookNotifier) (net : JVal → Nat → Bool)
    (fmtTime : String) (nowTs : ℚ) (cr : CheckResult)
    (h : cr.status_changed = false) :
    notify_port_status_change n net fmtTime nowTs cr = (true, 0, 0) := by
  simp [notify_port_status_change, h]

/-- Witness for C8 at a concrete non-transitioned outcome. -/
theorem notify_non_transition_noop_witness :
    notify_port_status_change (initNotifier retryCfg) (fun _ _ => false)
      "2026-01-01 00:00:00" 200
      { server := ⟨"web", "h", 80, "TCP"⟩, is_alive := false, response_time := none,
        status_changed := false, error := none, checked_at := some 100 } =
      (true, 0, 0) := by
  exact notify_non_transition_noop (initNotifier retryCfg) (fun _ _ => false)
    "2026-01-01 00:00:00" 200
    { server := ⟨"web", "h", 80, "TCP"⟩, is_alive := false, response_time := none,
      status_changed := false, error := none, checked_at := some 100 } rfl

/-- The sample check outcome used by the C9 theorems: an alive endpoint
with a recorded latency and an epoch `checked_at` of 100 seconds. -/
def sampleUp : CheckResult :=
  { server := ⟨"web", "h", 80, "TCP"⟩, is_alive := true, response_time := some 50,
    status_changed := true, error := none, checked_at := some 100 }

/-- C9 counterexample: for a generic (unmatched) URL, the `checked_at`
field of the rendered payload is the epoch-seconds **number** taken from
the check outcome, not a string. -/
theorem generic_checked_at_not_string :
    (format_port_status_message (initNotifier retryCfg) "2026-01-01 00:00:00" 200
        sampleUp).lookupKey "checked_at" = some (JVal.n 100) ∧
    ((format_port_status_message (initNotifier retryCfg) "2026-01-01 00:00:00" 200
        sampleUp).lookupKey "checked_at").map JVal.isStr = some false := by
  exact ⟨rfl, rfl⟩

/-- C9 amended: payload rendering is total in the URL: a URL containing a
provider-A substring (`feishu.cn` or `larksuite.com`) always yields the
nested `{msg_type, content: {text}}` shape; a URL matching no provider
substring yields the generic flat shape with exactly the stable-contract
keys, with `status` rendering the reachability as `UP`/`DOWN` and
`checked_at` holding the outcome's epoch-seconds number (a formatted-time
string only when the outcome lacks a `checked_at` key). -/
theorem format_message_shape_dispatch (n : WebhookNotifier) (fmtTime : String)
    (nowTs : ℚ) (cr : CheckResult) :
    ((strContains n.url "feishu.cn" = true ∨ strContains n.url "larksuite.com" = true) →
      format_port_status_message n fmtTime nowTs cr =
        JVal.obj [("msg_type", JVal.s n.msg_type),
                  ("content", JVal.obj [("text", JVal.s (feishuText cr fmtTime))])]) ∧
    (strContains n.url "feishu.cn" = false → strContains n.url "larksuite.com" = false →
     strContains n.url "dingtalk.com" = false →
      (format_port_status_message n fmtTime nowTs cr).keys =
        ["msg_type", "title", "server_name", "host", "port", "protocol", "status",
         "response_time_ms", "checked_at", "timestamp"] ∧
      (format_port_status_message n fmtTime nowTs cr).lookupKey "status" =
        some (JVal.s (if cr.is_alive then "UP" else "DOWN")) ∧
      (format_port_status_message n fmtTime nowTs cr).lookupKey "checked_at" =
        some (match cr.checked_at with
              | none => JVal.s fmtTime
              | some t => JVal.n t)) := by
  constructor
  · intro h
    rcases h with h | h <;> simp [format_port_status_message, h]
  · intro h1 h2 h3
    simp only [format_port_status_message, h1, h2, h3, Bool.or_self, Bool.false_eq_true,
      if_false]
    exact ⟨rfl, rfl, rfl⟩

/-- Witness for C9 amended: a feishu URL renders the nested shape; a plain
URL renders the generic shape with the full stable key list. -/
theorem format_message_shape_dispatch_witness :
    format_port_status_message (initNotifier
        { url := "https://open.feishu.cn/bot", method := "post", headers := none,
          retry_count := 2, retry_interval := 1, msg_type := none })
        "2026-01-01 00:00:00" 200 sampleUp =
      JVal.obj [("msg_type", JVal.s "text"),
                ("content", JVal.obj [("text",
                  JVal.s (feishuText sampleUp "2026-01-01 00:00:00"))])] ∧
    (format_port_status_message (initNotifier retryCfg) "2026-01-01 00:00:00" 200
        sampleUp).keys =
      ["msg_type", "title", "server_name", "host", "port", "protocol", "status",
       "response_time_ms", "checked_at", "timestamp"] := by
  constructor
  · exact (format_message_shape_dispatch (initNotifier
        { url := "https://open.feishu.cn/bot", method := "post", headers := none,
          retry_count := 2, retry_interval := 1, msg_type := none })
        "2026-01-01 00:00:00" 200 sampleUp).1 (Or.inl (by decide))
  · exact ((format_message_shape_dispatch (initNotifier retryCfg)
        "2026-01-01 00:00:00" 200 sampleUp).2 (by decide) (by decide) (by decide)).1

end PortGuardian
